import Mathlib

/-
Shallow embedding of the QuickBooks relay (src/main.py, src/models.py).

Modelling conventions:
- JSON values are the inductive `J`; JSON numbers are modelled as `Int`,
  which covers every numeric value the token lifecycle and the claims use
  (`expires_in`, HTTP status codes, integral invoice amounts).
- The module-global Python dict `oauth_session` is a key-value list `Dict`
  with Python dict semantics: `getKey` is `dict.get` (None when absent),
  `setKey` is item assignment (replace in place, append when new),
  `dictHasKey` is the `in` operator, `dictIsEmpty` is dict falsiness.
- The persisted file `oauth_session.json` is a `FileState`: absent
  (`FileNotFoundError` on open for read), present but not valid JSON
  (`json.load` raises `json.JSONDecodeError`, which `init_db` does NOT
  catch), or a readable record.  `json.dump`/`json.load` of the standard
  library are external collaborators assumed faithful, so a readable
  record stores the dict itself.
- Outbound HTTP (the `requests` library) and the OAuth client
  (`intuitlib.AuthClient`) are external collaborators: each handler takes
  the stubbed outcome of its single upstream call as an argument
  (`Upstream` for API calls, `TokenExchange` for the token endpoint) and
  reports the calls it issued as a list of `RelayCall` records, so that
  "no outbound call" and the injected bearer header are provable facts.
- Exceptions are `Except String`; a handler whose Python body catches all
  exceptions and returns `{"error": str(e)}` is a total function into `J`.
-/

inductive J where
  | null : J
  | str : String → J
  | num : Int → J
  | arr : List J → J
  | obj : List (String × J) → J

abbrev Dict := List (String × J)

/-- Python `d.get(k)`: the value stored under the first matching key, or
`none` (Python `None`) when the key is absent. -/
def getKey : List (String × J) → String → Option J
  | [], _ => none
  | (k1, v) :: rest, k => if k1 = k then some v else getKey rest k

/-- Python `d[k] = v`: replace the value in place when the key is present,
append the pair when it is not. -/
def setKey : Dict → String → J → Dict
  | [], k, v => [(k, v)]
  | (k1, v1) :: rest, k, v =>
      if k1 = k then (k, v) :: rest else (k1, v1) :: setKey rest k v

/-- Python `k in d`. -/
def dictHasKey (d : Dict) (k : String) : Bool :=
  match getKey d k with
  | some _ => true
  | none => false

/-- Python falsiness of a dict: `not d` is true exactly when it is empty. -/
def dictIsEmpty : Dict → Bool
  | [] => true
  | _ :: _ => false

/-- Python `f"{x}"` applied to the result of `dict.get`: an absent key or a
JSON null renders as the string `None`, strings render as themselves,
integers via decimal notation.  (The container renderings are never
reached by the claims: `access_token` and `realm_id` are strings or
absent in every scenario considered.) -/
def pyStr : Option J → String
  | none => "None"
  | some J.null => "None"
  | some (J.str s) => s
  | some (J.num n) => toString n
  | some (J.arr _) => "PyListRendering"
  | some (J.obj _) => "PyDictRendering"

/-- Python truthiness of a JSON value. -/
def jTruthy : J → Bool
  | J.null => false
  | J.str s => !(s == "")
  | J.num n => !(n == 0)
  | J.arr xs => !xs.isEmpty
  | J.obj fs => !fs.isEmpty

/-- Truthiness of `current_company` (Python `None` is falsy). -/
def jTruthyOpt : Option J → Bool
  | none => false
  | some v => jTruthy v

/-- State of the persisted record `oauth_session.json`. -/
inductive FileState where
  | missing : FileState
  | corrupt : FileState
  | record : Dict → FileState

/-- `json.dump(session, file)`: overwrite the persisted record. -/
def save (s : Dict) : FileState := FileState.record s

/-- `init_db` from src/main.py: read the persisted record at process start.
Only `FileNotFoundError` is caught (the missing file becomes the empty
session, persisted immediately); a file that exists but does not parse
raises `json.JSONDecodeError`, which propagates and fails startup. -/
def init_db : FileState → Except String (Dict × FileState)
  | FileState.missing => Except.ok ([], FileState.record [])
  | FileState.corrupt => Except.error "JSONDecodeError"
  | FileState.record s => Except.ok (s, FileState.record s)

/-- Outcome of the OAuth token endpoint call made through `AuthClient`
(`get_bearer_token` or `refresh`): either the three token fields, or the
exception the client raised. -/
inductive TokenExchange where
  | ok : String → String → Int → TokenExchange
  | err : String → TokenExchange

/-- The in-process state: the global `oauth_session` dict and the file. -/
structure ProcState where
  sess : Dict
  file : FileState

/-- Query parameters of the /callback request; `request.query_params.get`
yields `none` for an absent parameter. -/
structure QueryParams where
  code : Option String
  state : Option String
  realmId : Option String

/-- The `realm_id` value stored by the callback: `None` becomes JSON null. -/
def optJ : Option String → J
  | none => J.null
  | some s => J.str s

/-- The session dict the callback constructs on a successful exchange. -/
def callbackSession (st : String) (a r : String) (e : Int) (realm : Option String) : Dict :=
  [("state", J.str st), ("access_token", J.str a), ("refresh_token", J.str r),
   ("realm_id", optJ realm), ("token_expiry", J.num e)]

/-- `callback` from src/main.py.  A falsy `code` or `state` (absent or
empty) yields the missing-parameter error.  On a successful exchange the
handler builds the new session dict and writes it to the file — but the
assignment `oauth_session = {...}` lacks a `global` declaration, so it
binds a function-local name and the process-global session is left
unchanged (contrast `refresh_token`, which does declare `global`).  Any
exception is caught and returned as `{"error": str(e)}`. -/
def callback (q : QueryParams) (tx : TokenExchange) (st : ProcState) : J × ProcState :=
  match q.code, q.state with
  | some c, some s =>
      if c == "" || s == "" then
        (J.obj [("error", J.str "Missing code or state parameter")], st)
      else
        match tx with
        | TokenExchange.ok a r e =>
            (J.obj [("message", J.str "Authorization successful")],
             ⟨st.sess, save (callbackSession s a r e q.realmId)⟩)
        | TokenExchange.err m => (J.obj [("error", J.str m)], st)
  | _, _ => (J.obj [("error", J.str "Missing code or state parameter")], st)

/-- The session after a successful refresh: `access_token`,
`refresh_token` and `token_expiry` replaced in place. -/
def refreshedSession (sess : Dict) (a r : String) (e : Int) : Dict :=
  setKey (setKey (setKey sess "access_token" (J.str a)) "refresh_token" (J.str r))
    "token_expiry" (J.num e)

/-- `refresh_token` from src/main.py.  When the session has no
`refresh_token` key it raises `Exception("No refresh token available")`
without contacting the token endpoint; otherwise it calls
`auth_client.refresh` (the second component counts these upstream token
calls), mutates the three token fields of the global session in place and
persists the record.  An exchange failure propagates as an exception. -/
def refresh_token (sess : Dict) (tx : TokenExchange) :
    Except String (Dict × FileState) × Nat :=
  if dictHasKey sess "refresh_token" then
    match tx with
    | TokenExchange.ok a r e =>
        (Except.ok (refreshedSession sess a r e, save (refreshedSession sess a r e)), 1)
    | TokenExchange.err m => (Except.error m, 1)
  else (Except.error "No refresh token available", 0)

def base_url : String := "https://sandbox-quickbooks.api.intuit.com/"

/-- A response the `requests` library returned: status code and JSON body. -/
structure HttpResp where
  status : Nat
  body : J

/-- Outcome of one outbound API call: a response, or a transport-level
exception raised by `requests`. -/
inductive Upstream where
  | ok : HttpResp → Upstream
  | transportError : String → Upstream

/-- One outbound call a relay handler issued: target URL, the value of the
injected `Authorization` header, and the JSON payload for POSTs. -/
structure RelayCall where
  url : String
  bearer : String
  payload : Option J

/-- The bearer header each handler injects via `headers.update`:
`f"Bearer {oauth_session.get('access_token')}"`. -/
def bearerOf (sess : Dict) : String :=
  "Bearer " ++ pyStr (getKey sess "access_token")

def customersUrl (sess : Dict) : String :=
  base_url ++ "v3/company/" ++ pyStr (getKey sess "realm_id") ++ "/query"

def invoiceUrl (sess : Dict) : String :=
  base_url ++ "v3/company/" ++ pyStr (getKey sess "realm_id") ++ "/invoice"

def transactionsUrl (sess : Dict) : String :=
  base_url ++ "v3/company/" ++ pyStr (getKey sess "realm_id") ++ "/reports/TransactionList"

/-- `get_customers` from src/main.py.  Empty session: return the
Not-authenticated error without calling upstream.  Otherwise issue the
query call with the bearer header; on 200 return
`response.json()["QueryResponse"].get("Customer", [])` (a missing
`QueryResponse` key or a non-dict shape raises inside the `try` and is
caught); on non-200 return the structured error with the upstream status;
on a transport exception return `{"error": str(e)}`. -/
def get_customers (sess : Dict) (up : Upstream) : J × List RelayCall :=
  if dictIsEmpty sess then (J.obj [("error", J.str "Not authenticated")], [])
  else
    let call : RelayCall := ⟨customersUrl sess, bearerOf sess, none⟩
    match up with
    | Upstream.transportError m => (J.obj [("error", J.str m)], [call])
    | Upstream.ok r =>
        if r.status = 200 then
          match r.body with
          | J.obj fs =>
              match getKey fs "QueryResponse" with
              | some (J.obj qs) => ((getKey qs "Customer").getD (J.arr []), [call])
              | some _ => (J.obj [("error", J.str "AttributeError")], [call])
              | none => (J.obj [("error", J.str "KeyError: QueryResponse")], [call])
          | _ => (J.obj [("error", J.str "TypeError")], [call])
        else
          (J.obj [("error", J.str "Failed to fetch customers"),
                  ("status_code", J.num r.status)], [call])

/-- `ItemRef` from src/models.py. -/
structure ItemRef where
  name : String
  value : String

/-- `SalesItemLineDetail` from src/models.py. -/
structure SalesItemLineDetail where
  ItemRef : ItemRef

/-- `LineItem` from src/models.py.  `Amount: float` is modelled as the
integral JSON numbers the claims use. -/
structure LineItem where
  DetailType : String
  Amount : Int
  SalesItemLineDetail : SalesItemLineDetail

/-- `CustomerRef` from src/models.py. -/
structure CustomerRef where
  value : String

/-- `InvoiceModel` from src/models.py. -/
structure InvoiceModel where
  Line : List LineItem
  CustomerRef : CustomerRef

/-- pydantic `model_dump()` of an `InvoiceModel`: exactly the declared
schema fields, nothing else. -/
def model_dump (inv : InvoiceModel) : J :=
  J.obj [("Line", J.arr (inv.Line.map (fun li =>
            J.obj [("DetailType", J.str li.DetailType),
                   ("Amount", J.num li.Amount),
                   ("SalesItemLineDetail",
                    J.obj [("ItemRef",
                            J.obj [("name", J.str li.SalesItemLineDetail.ItemRef.name),
                                   ("value", J.str li.SalesItemLineDetail.ItemRef.value)])])]))),
         ("CustomerRef", J.obj [("value", J.str inv.CustomerRef.value)])]

/-- `create_invoice` from src/main.py: the handler body, entered with a
body that already passed validation. -/
def create_invoice (inv : InvoiceModel) (sess : Dict) (up : Upstream) : J × List RelayCall :=
  if dictIsEmpty sess then (J.obj [("error", J.str "Not authenticated")], [])
  else
    let call : RelayCall := ⟨invoiceUrl sess, bearerOf sess, some (model_dump inv)⟩
    match up with
    | Upstream.transportError m => (J.obj [("error", J.str m)], [call])
    | Upstream.ok r =>
        if r.status = 200 then (r.body, [call])
        else
          (J.obj [("error", J.str "Failed to create invoice"),
                  ("status_code", J.num r.status)], [call])

/-- `get_transactions` from src/main.py. -/
def get_transactions (sess : Dict) (up : Upstream) : J × List RelayCall :=
  if dictIsEmpty sess then (J.obj [("error", J.str "Not authenticated")], [])
  else
    let call : RelayCall := ⟨transactionsUrl sess, bearerOf sess, none⟩
    match up with
    | Upstream.transportError m => (J.obj [("error", J.str m)], [call])
    | Upstream.ok r =>
        if r.status = 200 then (r.body, [call])
        else
          (J.obj [("error", J.str "Failed to fetch transactions"),
                  ("status_code", J.num r.status)], [call])

/-- `set_current_company` from src/main.py: on a 200 company-info response
return `response.json()["CompanyInfo"]["CompanyName"]`; a non-200, a
transport failure or a missing key all yield Python `None` (the function
body catches every exception).  The session is read only to build the
header and URL of the company call, which the claims never inspect. -/
def set_current_company (_sess : Dict) (up : Upstream) : Option J :=
  match up with
  | Upstream.transportError _ => none
  | Upstream.ok r =>
      if r.status = 200 then
        match r.body with
        | J.obj fs =>
            match getKey fs "CompanyInfo" with
            | some (J.obj cs) => getKey cs "CompanyName"
            | _ => none
        | _ => none
      else none

/-- The body `root` returns. -/
def welcomeMsg (c : Option J) : J :=
  J.obj [("message", J.str "Welcome to QuickBooks API"),
         ("Company", if jTruthyOpt c then c.getD J.null
                     else J.str "No company authenticated")]

/-- `root` from src/main.py.  With a non-empty session it looks up the
company; when that comes back falsy it calls `refresh_token()` with NO
surrounding try/except, so an exception raised there (no refresh token,
or a failed exchange) escapes the handler unhandled.  The result carries
the response body, the session, the file and `current_company`. -/
def root (sess : Dict) (file : FileState) (prevCompany : Option J)
    (companyUp : Upstream) (tx : TokenExchange) :
    Except String (J × Dict × FileState × Option J) :=
  if dictIsEmpty sess then
    Except.ok (welcomeMsg prevCompany, sess, file, prevCompany)
  else
    let c := set_current_company sess companyUp
    if jTruthyOpt c then Except.ok (welcomeMsg c, sess, file, c)
    else
      match refresh_token sess tx with
      | (Except.ok (s1, f1), _) => Except.ok (welcomeMsg c, s1, f1, c)
      | (Except.error m, _) => Except.error m

/-- pydantic field lookup: a missing required field is a validation error. -/
def requireField (o : Option J) : Except String J :=
  match o with
  | some v => Except.ok v
  | none => Except.error "Field required"

/-- pydantic `str` field. -/
def asStr (o : Option J) : Except String String :=
  match o with
  | some (J.str s) => Except.ok s
  | some _ => Except.error "Input should be a valid string"
  | none => Except.error "Field required"

/-- pydantic numeric field (`Amount`). -/
def asNum (o : Option J) : Except String Int :=
  match o with
  | some (J.num n) => Except.ok n
  | some _ => Except.error "Input should be a valid number"
  | none => Except.error "Field required"

/-- Validation of an `ItemRef` object.  pydantic with the default model
config reads only the declared fields and silently ignores any others. -/
def validateItemRef : J → Except String ItemRef
  | J.obj fs => do
      let n ← asStr (getKey fs "name")
      let v ← asStr (getKey fs "value")
      Except.ok ⟨n, v⟩
  | _ => Except.error "Input should be a valid dictionary"

/-- Validation of a `SalesItemLineDetail` object. -/
def validateSalesDetail : J → Except String SalesItemLineDetail
  | J.obj fs => do
      let irj ← requireField (getKey fs "ItemRef")
      let ir ← validateItemRef irj
      Except.ok ⟨ir⟩
  | _ => Except.error "Input should be a valid dictionary"

/-- Validation of a `LineItem` object. -/
def validateLineItem : J → Except String LineItem
  | J.obj fs => do
      let dt ← asStr (getKey fs "DetailType")
      let am ← asNum (getKey fs "Amount")
      let sdj ← requireField (getKey fs "SalesItemLineDetail")
      let sd ← validateSalesDetail sdj
      Except.ok ⟨dt, am, sd⟩
  | _ => Except.error "Input should be a valid dictionary"

/-- Validation of the `Line` list. -/
def validateLineList : J → Except String (List LineItem)
  | J.arr xs => xs.mapM validateLineItem
  | _ => Except.error "Input should be a valid list"

/-- Validation of the `CustomerRef` object. -/
def validateCustomerRef : J → Except String CustomerRef
  | J.obj fs => do
      let v ← asStr (getKey fs "value")
      Except.ok ⟨v⟩
  | _ => Except.error "Input should be a valid dictionary"

/-- Core of `InvoiceModel` validation, a function of the two declared
fields only — pydantic with the default (non-strict) model config never
inspects other keys of the body. -/
def validateInvoiceCore (lineF custF : Option J) : Except String InvoiceModel := do
  let lj ← requireField lineF
  let ls ← validateLineList lj
  let cj ← requireField custF
  let cr ← validateCustomerRef cj
  Except.ok ⟨ls, cr⟩

/-- FastAPI/pydantic validation of a POST /invoices/create body against
`InvoiceModel` (src/models.py).  The models declare no strict or
extra-forbidding config, so pydantic v2 defaults apply: unknown keys are
ignored, not rejected. -/
def validateInvoice : J → Except String InvoiceModel
  | J.obj fs => validateInvoiceCore (getKey fs "Line") (getKey fs "CustomerRef")
  | _ => Except.error "Input should be a valid dictionary"

/-- The /invoices/create endpoint as the framework runs it: the body is
validated first (a failure returns the 422 detail body without entering
the handler), then the handler receives the parsed model. -/
def invoices_create_endpoint (body : J) (sess : Dict) (up : Upstream) : J × List RelayCall :=
  match validateInvoice body with
  | Except.error m => (J.obj [("detail", J.str m)], [])
  | Except.ok inv => create_invoice inv sess up

/-- Top-level keys of a JSON object. -/
def topKeys : J → List String
  | J.obj fs => fs.map Prod.fst
  | _ => []

theorem getKey_setKey_self (d : Dict) (k : String) (v : J) :
    getKey (setKey d k v) k = some v := by
  induction d with
  | nil => simp [setKey, getKey]
  | cons p rest ih =>
      obtain ⟨k1, v1⟩ := p
      by_cases h : k1 = k
      · simp [setKey, getKey, h]
      · simp [setKey, getKey, h, ih]

theorem getKey_setKey_ne (d : Dict) (k k2 : String) (v : J) (h : k ≠ k2) :
    getKey (setKey d k v) k2 = getKey d k2 := by
  induction d with
  | nil => simp [setKey, getKey, h]
  | cons p rest ih =>
      obtain ⟨k1, v1⟩ := p
      by_cases h1 : k1 = k
      · subst h1
        simp [setKey, getKey, h]
      · simp [setKey, getKey, h1, ih]

theorem getKey_append_single (l : List (String × J)) (k key : String) (v : J)
    (h : k ≠ key) : getKey (l ++ [(k, v)]) key = getKey l key := by
  induction l with
  | nil => simp [getKey, h]
  | cons p rest ih =>
      obtain ⟨k1, v1⟩ := p
      by_cases h1 : k1 = key
      · simp [getKey, h1]
      · simp [getKey, h1, ih]

/-- The session persisted by the spec's callback scenario, reused as the
authenticated session of later scenarios. -/
def demoSess : Dict :=
  [("state", J.str "xyz"), ("access_token", J.str "A"),
   ("refresh_token", J.str "R"), ("realm_id", J.str "123"),
   ("token_expiry", J.num 3600)]

/-- A schema-valid invoice: one sales line of amount 100 for item 1,
billed to customer 42. -/
def demoInvoice : InvoiceModel :=
  ⟨[⟨"SalesItemLineDetail", 100, ⟨⟨"Services", "1"⟩⟩⟩], ⟨"42"⟩⟩

/-- JSON form of the demo invoice line list. -/
def demoLineJ : J :=
  J.arr [J.obj [("DetailType", J.str "SalesItemLineDetail"),
                ("Amount", J.num 100),
                ("SalesItemLineDetail",
                 J.obj [("ItemRef", J.obj [("name", J.str "Services"),
                                           ("value", J.str "1")])])]]

/-- JSON form of the demo customer reference. -/
def demoCustJ : J := J.obj [("value", J.str "42")]

/-- A request body that is schema-valid except for one extra top-level
key, `Memo`, which is not declared in `InvoiceModel`. -/
def extraInvoiceBody : J :=
  J.obj [("Line", demoLineJ), ("CustomerRef", demoCustJ),
         ("Memo", J.str "extra field")]

theorem calls_customers (sess : Dict) (up : Upstream)
    (hne : dictIsEmpty sess = false) :
    (get_customers sess up).2 = [⟨customersUrl sess, bearerOf sess, none⟩] := by
  simp only [get_customers, hne, Bool.false_eq_true, if_false]
  cases up with
  | transportError m => rfl
  | ok r =>
      by_cases hs : r.status = 200
      · simp only [hs, if_true]
        split <;> try rfl
        split <;> rfl
      · simp [hs]

theorem calls_invoice (inv : InvoiceModel) (sess : Dict) (up : Upstream)
    (hne : dictIsEmpty sess = false) :
    (create_invoice inv sess up).2 =
      [⟨invoiceUrl sess, bearerOf sess, some (model_dump inv)⟩] := by
  simp only [create_invoice, hne, Bool.false_eq_true, if_false]
  cases up with
  | transportError m => rfl
  | ok r =>
      by_cases hs : r.status = 200
      · simp [hs]
      · simp [hs]

theorem calls_transactions (sess : Dict) (up : Upstream)
    (hne : dictIsEmpty sess = false) :
    (get_transactions sess up).2 = [⟨transactionsUrl sess, bearerOf sess, none⟩] := by
  simp only [get_transactions, hne, Bool.false_eq_true, if_false]
  cases up with
  | transportError m => rfl
  | ok r =>
      by_cases hs : r.status = 200
      · simp [hs]
      · simp [hs]

/-- C1: the spec claims a successful /callback makes every subsequent
relay call of the same process use the newly obtained access token.  The
code instead leaves the process-global session untouched (the assignment
in `callback` lacks `global`), so after the spec's own callback scenario
a subsequent /customers call still sees the empty session and returns the
Not-authenticated error with no outbound call — the new token `A` is
never injected. -/
theorem C1_callback_session_not_visible :
    (callback ⟨some "abc", some "xyz", some "123"⟩ (TokenExchange.ok "A" "R" 3600)
        ⟨[], FileState.record []⟩).2.sess = [] ∧
    (∀ up, get_customers
        (callback ⟨some "abc", some "xyz", some "123"⟩ (TokenExchange.ok "A" "R" 3600)
          ⟨[], FileState.record []⟩).2.sess up =
      (J.obj [("error", J.str "Not authenticated")], [])) :=
  ⟨rfl, fun _ => rfl⟩

/-- C2: a /callback request with code=abc, state=xyz, realmId=123 and a
token exchange returning access A, refresh R, expires_in 3600 persists
exactly the record {state, access_token, refresh_token, realm_id,
token_expiry} = {xyz, A, R, 123, 3600} and returns
{message: Authorization successful}, whatever the prior process state. -/
theorem C2_callback_persists_record (st : ProcState) :
    callback ⟨some "abc", some "xyz", some "123"⟩ (TokenExchange.ok "A" "R" 3600) st =
      (J.obj [("message", J.str "Authorization successful")],
       ⟨st.sess, FileState.record
          [("state", J.str "xyz"), ("access_token", J.str "A"),
           ("refresh_token", J.str "R"), ("realm_id", J.str "123"),
           ("token_expiry", J.num 3600)]⟩) := rfl

/-- C3: with the empty session, each of /customers, /invoices/create and
/transactions returns the Not-authenticated error and issues no outbound
call, whatever the upstream stub would have answered. -/
theorem C3_empty_session_unauthenticated :
    ∀ (up : Upstream) (inv : InvoiceModel),
      get_customers [] up = (J.obj [("error", J.str "Not authenticated")], []) ∧
      create_invoice inv [] up = (J.obj [("error", J.str "Not authenticated")], []) ∧
      get_transactions [] up = (J.obj [("error", J.str "Not authenticated")], []) :=
  fun _ _ => ⟨rfl, rfl, rfl⟩

/-- C4 counterexample: the claim says load() on an unreadable persisted
record initializes the empty state, but `init_db` catches only the
missing-file case; a record that exists and fails to parse raises
`json.JSONDecodeError` out of `init_db` and fails startup. -/
theorem C4_counterexample_unreadable_record :
    init_db FileState.corrupt = Except.error "JSONDecodeError" := rfl

/-- C4 amended: load() on a MISSING record initializes and persists the
empty state, and a readable record loads as stored; the relay handlers
recover transport failures as JSON error bodies; but an unreadable record
fails startup, and an error raised by the opportunistic refresh reached
from the root endpoint (here: company lookup fails on a session that has
an access token but no refresh token) escapes as an unhandled
exception. -/
theorem C4_amended_error_recovery :
    init_db FileState.missing = Except.ok ([], FileState.record []) ∧
    (∀ s : Dict, init_db (FileState.record s) = Except.ok (s, FileState.record s)) ∧
    (∀ (sess : Dict) (m : String), dictIsEmpty sess = false →
        (get_customers sess (Upstream.transportError m)).1 = J.obj [("error", J.str m)] ∧
        (get_transactions sess (Upstream.transportError m)).1 = J.obj [("error", J.str m)] ∧
        ∀ inv, (create_invoice inv sess (Upstream.transportError m)).1 =
          J.obj [("error", J.str m)]) ∧
    root [("access_token", J.str "A")] (FileState.record [("access_token", J.str "A")])
        none (Upstream.ok ⟨500, J.null⟩) (TokenExchange.ok "x" "y" 0) =
      Except.error "No refresh token available" := by
  refine ⟨rfl, fun s => rfl, ?_, rfl⟩
  intro sess m h
  refine ⟨?_, ?_, fun inv => ?_⟩ <;>
    simp [get_customers, get_transactions, create_invoice, h]

/-- Witness for C4: the transport-error conjunct evaluated on the demo
session. -/
theorem C4_amended_error_recovery_witness :
    dictIsEmpty demoSess = false ∧
    (get_customers demoSess (Upstream.transportError "ConnectionError")).1 =
      J.obj [("error", J.str "ConnectionError")] :=
  ⟨rfl, (C4_amended_error_recovery.2.2.1 demoSess "ConnectionError" rfl).1⟩

/-- C5 counterexample: a body that is schema-valid plus an unknown
top-level key `Memo` is NOT rejected — pydantic with the default model
config validates it successfully (dropping the extra key), the handler is
entered, and the outbound payload is constructed and sent.  The claim
that validation rejects such a body before any outbound payload is
constructed is therefore false. -/
theorem C5_counterexample_extra_field_accepted :
    validateInvoice extraInvoiceBody = Except.ok demoInvoice ∧
    invoices_create_endpoint extraInvoiceBody demoSess (Upstream.ok ⟨200, J.obj []⟩) =
      (J.obj [], [⟨invoiceUrl demoSess, bearerOf demoSess,
                   some (model_dump demoInvoice)⟩]) :=
  ⟨rfl, rfl⟩

/-- C5 amended: unknown top-level fields are ignored by validation, not
rejected — appending any key other than the declared `Line` and
`CustomerRef` to a body leaves the validation outcome unchanged — and the
outbound payload built from a successfully validated model carries
exactly the declared schema fields, so the unknown field never reaches
upstream. -/
theorem C5_amended_unknown_fields_ignored (fs : List (String × J)) (k : String) (v : J)
    (h1 : k ≠ "Line") (h2 : k ≠ "CustomerRef") :
    validateInvoice (J.obj (fs ++ [(k, v)])) = validateInvoice (J.obj fs) ∧
    ∀ m : InvoiceModel, topKeys (model_dump m) = ["Line", "CustomerRef"] := by
  constructor
  · simp [validateInvoice, getKey_append_single fs k "Line" v h1,
      getKey_append_single fs k "CustomerRef" v h2]
  · intro m
    rfl

/-- Witness for C5 amended: the extra key `Memo` on the demo body. -/
theorem C5_amended_unknown_fields_ignored_witness :
    ("Memo" ≠ "Line") ∧ ("Memo" ≠ "CustomerRef") ∧
    validateInvoice (J.obj ([("Line", demoLineJ), ("CustomerRef", demoCustJ)] ++
        [("Memo", J.str "extra field")])) =
      validateInvoice (J.obj [("Line", demoLineJ), ("CustomerRef", demoCustJ)]) :=
  ⟨by decide, by decide,
   (C5_amended_unknown_fields_ignored [("Line", demoLineJ), ("CustomerRef", demoCustJ)]
      "Memo" (J.str "extra field") (by decide) (by decide)).1⟩

/-- C6: a save followed by a load (as a fresh process instance would do
through `init_db`) returns the saved session field-for-field, and leaves
the persisted record as saved. -/
theorem C6_save_load_roundtrip :
    ∀ s : Dict, init_db (save s) = Except.ok (s, save s) :=
  fun _ => rfl

/-- C7: on a session without a `refresh_token` key, refresh fails with
the no-refresh-token error and performs zero calls to the upstream token
endpoint, whatever that endpoint would have answered. -/
theorem C7_refresh_without_token (sess : Dict) (tx : TokenExchange)
    (h : dictHasKey sess "refresh_token" = false) :
    refresh_token sess tx = (Except.error "No refresh token available", 0) := by
  simp [refresh_token, h]

/-- Witness for C7: a session holding only an access token. -/
theorem C7_refresh_without_token_witness :
    dictHasKey [("access_token", J.str "A")] "refresh_token" = false ∧
    refresh_token [("access_token", J.str "A")] (TokenExchange.ok "x" "y" 0) =
      (Except.error "No refresh token available", 0) :=
  ⟨rfl, C7_refresh_without_token [("access_token", J.str "A")]
    (TokenExchange.ok "x" "y" 0) rfl⟩

/-- C8: on a session holding a `refresh_token`, a successful refresh
makes exactly one token-endpoint call, persists the updated session, sets
`access_token`, `refresh_token` and `token_expiry` to the newly obtained
values, and leaves every other key — in particular `state` and
`realm_id` — unchanged. -/
theorem C8_refresh_replaces_tokens_only (sess : Dict) (a r : String) (e : Int)
    (h : dictHasKey sess "refresh_token" = true) :
    refresh_token sess (TokenExchange.ok a r e) =
      (Except.ok (refreshedSession sess a r e, save (refreshedSession sess a r e)), 1) ∧
    getKey (refreshedSession sess a r e) "access_token" = some (J.str a) ∧
    getKey (refreshedSession sess a r e) "refresh_token" = some (J.str r) ∧
    getKey (refreshedSession sess a r e) "token_expiry" = some (J.num e) ∧
    ∀ k : String, k ≠ "access_token" → k ≠ "refresh_token" → k ≠ "token_expiry" →
      getKey (refreshedSession sess a r e) k = getKey sess k := by
  refine ⟨by simp [refresh_token, h], ?_, ?_, ?_, ?_⟩
  · rw [refreshedSession, getKey_setKey_ne _ _ _ _ (by decide),
      getKey_setKey_ne _ _ _ _ (by decide), getKey_setKey_self]
  · rw [refreshedSession, getKey_setKey_ne _ _ _ _ (by decide), getKey_setKey_self]
  · rw [refreshedSession, getKey_setKey_self]
  · intro k h1 h2 h3
    rw [refreshedSession, getKey_setKey_ne _ _ _ _ (Ne.symm h3),
      getKey_setKey_ne _ _ _ _ (Ne.symm h2), getKey_setKey_ne _ _ _ _ (Ne.symm h1)]

/-- Witness for C8: refreshing the demo session with new tokens A2, R2
and expiry 7200. -/
theorem C8_refresh_replaces_tokens_only_witness :
    dictHasKey demoSess "refresh_token" = true ∧
    (refresh_token demoSess (TokenExchange.ok "A2" "R2" 7200) =
      (Except.ok (refreshedSession demoSess "A2" "R2" 7200,
        save (refreshedSession demoSess "A2" "R2" 7200)), 1) ∧
     getKey (refreshedSession demoSess "A2" "R2" 7200) "access_token" =
       some (J.str "A2") ∧
     getKey (refreshedSession demoSess "A2" "R2" 7200) "refresh_token" =
       some (J.str "R2") ∧
     getKey (refreshedSession demoSess "A2" "R2" 7200) "token_expiry" =
       some (J.num 7200) ∧
     ∀ k : String, k ≠ "access_token" → k ≠ "refresh_token" → k ≠ "token_expiry" →
       getKey (refreshedSession demoSess "A2" "R2" 7200) k = getKey demoSess k) :=
  ⟨rfl, C8_refresh_replaces_tokens_only demoSess "A2" "R2" 7200 rfl⟩

/-- C9: with a non-empty session, a non-200 upstream response makes each
relay handler return the structured error carrying the upstream status
code, after exactly the one listed API call — the handlers contain no
retry and no invocation of `refresh_token`, so no token-endpoint call
occurs on this path.  At status 500 on /customers this is the response
{error: Failed to fetch customers, status_code: 500}. -/
theorem C9_non200_structured_error (sess : Dict) (code : Nat) (body : J)
    (inv : InvoiceModel) (hne : dictIsEmpty sess = false) (hcode : code ≠ 200) :
    get_customers sess (Upstream.ok ⟨code, body⟩) =
      (J.obj [("error", J.str "Failed to fetch customers"),
              ("status_code", J.num code)],
       [⟨customersUrl sess, bearerOf sess, none⟩]) ∧
    create_invoice inv sess (Upstream.ok ⟨code, body⟩) =
      (J.obj [("error", J.str "Failed to create invoice"),
              ("status_code", J.num code)],
       [⟨invoiceUrl sess, bearerOf sess, some (model_dump inv)⟩]) ∧
    get_transactions sess (Upstream.ok ⟨code, body⟩) =
      (J.obj [("error", J.str "Failed to fetch transactions"),
              ("status_code", J.num code)],
       [⟨transactionsUrl sess, bearerOf sess, none⟩]) := by
  refine ⟨?_, ?_, ?_⟩ <;>
    simp [get_customers, create_invoice, get_transactions, hne, hcode]

/-- Witness for C9: the spec's scenario — authenticated demo session,
upstream answers 500 on /customers. -/
theorem C9_non200_structured_error_witness :
    dictIsEmpty demoSess = false ∧ (500 ≠ 200) ∧
    get_customers demoSess (Upstream.ok ⟨500, J.null⟩) =
      (J.obj [("error", J.str "Failed to fetch customers"),
              ("status_code", J.num 500)],
       [⟨customersUrl demoSess, bearerOf demoSess, none⟩]) :=
  ⟨rfl, by decide,
   (C9_non200_structured_error demoSess 500 J.null demoInvoice rfl (by decide)).1⟩

/-- C10: a non-empty session with no `access_token` key is NOT treated as
unauthenticated — each relay handler proceeds to issue its upstream call,
and the injected Authorization header is the literal string
`Bearer None` rendered from the absent token. -/
theorem C10_missing_access_token_bearer_none (sess : Dict) (up : Upstream)
    (inv : InvoiceModel) (hne : dictIsEmpty sess = false)
    (hacc : getKey sess "access_token" = none) :
    (get_customers sess up).2 = [⟨customersUrl sess, "Bearer None", none⟩] ∧
    (create_invoice inv sess up).2 =
      [⟨invoiceUrl sess, "Bearer None", some (model_dump inv)⟩] ∧
    (get_transactions sess up).2 = [⟨transactionsUrl sess, "Bearer None", none⟩] := by
  have hb : bearerOf sess = "Bearer None" := by
    rw [bearerOf, hacc]
    rfl
  exact ⟨by rw [calls_customers sess up hne, hb],
         by rw [calls_invoice inv sess up hne, hb],
         by rw [calls_transactions sess up hne, hb]⟩

/-- Witness for C10: a session holding only a realm id. -/
theorem C10_missing_access_token_bearer_none_witness :
    dictIsEmpty [("realm_id", J.str "123")] = false ∧
    getKey [("realm_id", J.str "123")] "access_token" = none ∧
    (get_customers [("realm_id", J.str "123")] (Upstream.ok ⟨200, J.obj []⟩)).2 =
      [⟨customersUrl [("realm_id", J.str "123")], "Bearer None", none⟩] :=
  ⟨rfl, rfl,
   (C10_missing_access_token_bearer_none [("realm_id", J.str "123")]
      (Upstream.ok ⟨200, J.obj []⟩) demoInvoice rfl rfl).1⟩
